import Mathlib

/-!
A shallow embedding of the request-admission pipeline of
`mao.mock.service.js` (the `helloHttp` cloud function and its helpers),
together with theorems settling the specification's claims about it.

Modelling conventions:
* JavaScript numbers (timestamps in ms, probabilities, durations) are
  modelled as `ℚ`; uniform random draws in `[0,1)` enter as explicit `ℚ`
  parameters (one per `Math.random()` call site, collected in `Draws`).
* The module-level mutable variables (`serviceState`, `errorWindow`,
  `circuitBreakerState`, `circuitBreakerOpenTime`, `halfOpenAttempts`,
  `rateLimitMap`) are collected in the state record `Sys`, threaded
  explicitly through every function.
* A request is processed against a single instant `now` (requests are
  modelled as instantaneous, so every `Date.now()` inside one invocation
  reads the same value and measured response times are `0`).
* `null` becomes `Option.none`; the JS arithmetic coercion `null → 0`
  in `now - circuitBreakerOpenTime` becomes `Option.getD 0`.
-/

set_option allowUnsafeReducibility true in
attribute [semireducible] Rat.add Rat.sub Rat.mul Rat.inv Rat.ofScientific

set_option maxRecDepth 4000

namespace MaoMock

/-- The immutable numeric configuration (the `config` object, lines 17-38). -/
structure Config where
  baseSuccessRate : ℚ
  outageChance : ℚ
  minOutageDuration : ℚ
  maxOutageDuration : ℚ
  slowResponseChance : ℚ
  minSlowDelay : ℚ
  maxSlowDelay : ℚ
  normalPeriodChance : ℚ
  minNormalPeriod : ℚ
  maxNormalPeriod : ℚ
  serverErrorChance : ℚ
  clientErrorChance : ℚ
  timeoutChance : ℚ
  circuitBreakerThreshold : ℕ
  circuitBreakerWindow : ℚ
  circuitBreakerRecovery : ℚ
  circuitBreakerHalfOpenRequests : ℕ
  rateLimitWindowMs : ℚ
  rateLimitMax : ℕ
deriving Repr

/-- The configuration values shipped in the source (lines 17-38). -/
def defaultConfig : Config where
  baseSuccessRate := 0.95
  outageChance := 0.0001
  minOutageDuration := 15000
  maxOutageDuration := 45000
  slowResponseChance := 0.15
  minSlowDelay := 500
  maxSlowDelay := 2000
  normalPeriodChance := 0.002
  minNormalPeriod := 300000
  maxNormalPeriod := 1800000
  serverErrorChance := 0.01
  clientErrorChance := 0.005
  timeoutChance := 0.002
  circuitBreakerThreshold := 15
  circuitBreakerWindow := 60000
  circuitBreakerRecovery := 20000
  circuitBreakerHalfOpenRequests := 2
  rateLimitWindowMs := 10000
  rateLimitMax := 50

/-- Circuit breaker states (the `circuitBreakerState` string, line 63). -/
inductive CBState where
  | CLOSED
  | OPEN
  | HALF_OPEN
deriving DecidableEq, Repr

/-- The `serviceState` object (lines 4-14). -/
structure ServiceState where
  isHealthy : Bool
  lastOutageStart : Option ℚ
  outageEndTime : Option ℚ
  normalPeriodStart : ℚ
  normalPeriodDuration : Option ℚ
  requestCount : ℕ
  successCount : ℕ
  errorCount : ℕ
  averageResponseTime : ℚ
deriving DecidableEq, Repr

/-- One rate-limiter entry `{count, start}` (line 47). -/
structure RLEntry where
  count : ℕ
  start : ℚ
deriving DecidableEq, Repr

/-- The module-level mutable state: `serviceState`, the circuit-breaker
variables (lines 62-65) and the `rateLimitMap` (line 41, modelled as an
association list keyed by client IP). -/
structure Sys where
  svc : ServiceState
  errorWindow : List ℚ
  circuitBreakerState : CBState
  circuitBreakerOpenTime : Option ℚ
  halfOpenAttempts : ℕ
  rateLimitMap : List (String × RLEntry)
deriving DecidableEq, Repr

/-- Lookup in the rate-limit association list (`rateLimitMap.get(ip)`). -/
def rlFind (m : List (String × RLEntry)) (ip : String) : Option RLEntry :=
  match m with
  | [] => none
  | (k, v) :: rest => if k = ip then some v else rlFind rest ip

/-- Store in the rate-limit association list (`rateLimitMap.set(ip, entry)`). -/
def rlStore (m : List (String × RLEntry)) (ip : String) (e : RLEntry) :
    List (String × RLEntry) :=
  match m with
  | [] => [(ip, e)]
  | (k, v) :: rest => if k = ip then (k, e) :: rest else (k, v) :: rlStore rest ip e

/-- Core of `checkRateLimit` (lines 43-54) acting on one client's entry.
Returns `true` when the request is rate-limited, with the updated entry:
a missing or expired entry is reset to `{count: 1, start: now}` and the
request allowed; otherwise the count is incremented and the request denied
exactly when the incremented count exceeds `rateLimitMax`. -/
def checkRateLimit (cfg : Config) (now : ℚ) (entry : Option RLEntry) :
    Bool × RLEntry :=
  match entry with
  | none => (false, { count := 1, start := now })
  | some e =>
    if now - e.start > cfg.rateLimitWindowMs then
      (false, { count := 1, start := now })
    else
      let c := e.count + 1
      if c > cfg.rateLimitMax then (true, { count := c, start := e.start })
      else (false, { count := c, start := e.start })

/-- `checkRateLimit(ip)` as called by the pipeline (line 262): looks the
client up in the map and stores the updated entry back. -/
def checkRateLimitIp (cfg : Config) (now : ℚ) (ip : String) (s : Sys) :
    Bool × Sys :=
  let r := checkRateLimit cfg now (rlFind s.rateLimitMap ip)
  (r.1, { s with rateLimitMap := rlStore s.rateLimitMap ip r.2 })

/-- The outage draw of `checkServiceAvailability` (lines 89-100):
`randOutage` is the `Math.random()` value of line 90, `randDur` the one of
line 92. When healthy and the draw hits, a new outage window is opened and
the call reports unavailable; otherwise the current health is reported. -/
def availabilityDraw (cfg : Config) (now randOutage randDur : ℚ)
    (s : ServiceState) : Bool × ServiceState :=
  if s.isHealthy ∧ randOutage < cfg.outageChance then
    let outageDuration :=
      randDur * (cfg.maxOutageDuration - cfg.minOutageDuration) + cfg.minOutageDuration
    (false, { s with isHealthy := false, lastOutageStart := some now,
                     outageEndTime := some (now + outageDuration) })
  else (s.isHealthy, s)

/-- `checkServiceAvailability` (lines 73-103): reject while an outage
window is active, clear an expired window, then possibly draw a new
outage. -/
def checkServiceAvailability (cfg : Config) (now randOutage randDur : ℚ)
    (s : ServiceState) : Bool × ServiceState :=
  match s.outageEndTime with
  | some endTime =>
    if now < endTime then (false, s)
    else
      availabilityDraw cfg now randOutage randDur
        { s with isHealthy := true, outageEndTime := none, lastOutageStart := none }
  | none => availabilityDraw cfg now randOutage randDur s

/-- `isInNormalPeriod` (lines 106-124): clear an expired normal period,
possibly start a new one (`randStart` is the draw of line 117, `randDur`
the one of line 119), and report whether one is active. -/
def isInNormalPeriod (cfg : Config) (now randStart randDur : ℚ)
    (s : ServiceState) : Bool × ServiceState :=
  let s1 :=
    match s.normalPeriodDuration with
    | some d =>
      if now - s.normalPeriodStart > d then { s with normalPeriodDuration := none } else s
    | none => s
  let s2 :=
    match s1.normalPeriodDuration with
    | none =>
      if randStart < cfg.normalPeriodChance then
        { s1 with normalPeriodStart := now,
                  normalPeriodDuration :=
                    some (randDur * (cfg.maxNormalPeriod - cfg.minNormalPeriod) +
                          cfg.minNormalPeriod) }
      else s1
    | some _ => s1
  (s2.normalPeriodDuration.isSome, s2)

/-- `isCircuitBreakerOpen` (lines 127-162): prune the error window, then
transition. While `OPEN`, the JS subtraction `now - circuitBreakerOpenTime`
coerces a `null` timestamp to `0`, modelled by `Option.getD 0`. -/
def isCircuitBreakerOpen (cfg : Config) (now : ℚ) (s : Sys) : Bool × Sys :=
  let pruned : Sys :=
    { s with errorWindow :=
        s.errorWindow.filter (fun t => now - t < cfg.circuitBreakerWindow) }
  match s.circuitBreakerState with
  | .CLOSED =>
    if pruned.errorWindow.length ≥ cfg.circuitBreakerThreshold then
      (true, { pruned with circuitBreakerState := .OPEN,
                           circuitBreakerOpenTime := some now })
    else (false, pruned)
  | .OPEN =>
    if now - (pruned.circuitBreakerOpenTime.getD 0) ≥ cfg.circuitBreakerRecovery then
      (false, { pruned with circuitBreakerState := .HALF_OPEN, halfOpenAttempts := 0 })
    else (true, pruned)
  | .HALF_OPEN => (false, pruned)

/-- `recordError` (lines 165-177): push the timestamp onto the error
window, bump the error count, and reopen the breaker on a half-open
failure. -/
def recordError (now : ℚ) (s : Sys) : Sys :=
  let s1 : Sys :=
    { s with errorWindow := s.errorWindow ++ [now],
             svc := { s.svc with errorCount := s.svc.errorCount + 1 } }
  if s.circuitBreakerState = .HALF_OPEN then
    { s1 with circuitBreakerState := .OPEN, circuitBreakerOpenTime := some now,
              halfOpenAttempts := 0 }
  else s1

/-- `recordSuccess` (lines 180-195): bump the success count; while
`HALF_OPEN`, count the probe and on reaching
`circuitBreakerHalfOpenRequests` close the breaker, keeping only error
entries strictly newer than `now - circuitBreakerWindow/2`. -/
def recordSuccess (cfg : Config) (now : ℚ) (s : Sys) : Sys :=
  let s1 : Sys := { s with svc := { s.svc with successCount := s.svc.successCount + 1 } }
  if s.circuitBreakerState = .HALF_OPEN then
    let att := s.halfOpenAttempts + 1
    if att ≥ cfg.circuitBreakerHalfOpenRequests then
      { s1 with circuitBreakerState := .CLOSED, halfOpenAttempts := 0,
                errorWindow :=
                  s1.errorWindow.filter (fun t => t > now - cfg.circuitBreakerWindow / 2) }
    else { s1 with halfOpenAttempts := att }
  else s1

/-- The synthetic error kinds of the `error_type` payload field. -/
inductive ErrKind where
  | rate_limit
  | service_unavailable
  | circuit_breaker_open
  | server_error
  | client_error
  | timeout
  | network_failure
  | validation_error
deriving DecidableEq, Repr

/-- `simulateError` (lines 198-214): one draw partitioned into cumulative
bands for server error, client error and timeout. -/
def simulateError (cfg : Config) (rand : ℚ) : Option (ℕ × ErrKind) :=
  if rand < cfg.serverErrorChance then some (500, .server_error)
  else if rand < cfg.serverErrorChance + cfg.clientErrorChance then
    some (400, .client_error)
  else if rand < cfg.serverErrorChance + cfg.clientErrorChance + cfg.timeoutChance then
    some (408, .timeout)
  else none

/-- `addDelay` (lines 217-225): the artificial latency drawn for a request
(`randSlow` is the draw of line 218, `randDelay` the one of line 219). -/
def addDelay (cfg : Config) (randSlow randDelay : ℚ) : ℚ :=
  if randSlow < cfg.slowResponseChance then
    randDelay * (cfg.maxSlowDelay - cfg.minSlowDelay) + cfg.minSlowDelay
  else 0

/-- A request descriptor: method, raw url (the code routes on `req.url`),
client IP, and whether `req.body.name` / `req.query.name` are present and
truthy. -/
structure Request where
  method : String
  url : String
  ip : String
  bodyName : Bool
  queryName : Bool
deriving DecidableEq, Repr

/-- The response facts the claims are about: HTTP status, the `error_type`
payload field, and the `circuit_breaker_state` payload field where the
code includes one. -/
structure Response where
  status : ℕ
  error_type : Option ErrKind := none
  circuit_breaker_state : Option CBState := none
deriving DecidableEq, Repr

/-- One uniform random value in `[0,1)` per `Math.random()` call site of a
single request. -/
structure Draws where
  outage : ℚ
  outageDur : ℚ
  slow : ℚ
  slowDelay : ℚ
  normal : ℚ
  normalDur : ℚ
  err : ℚ
  drop : ℚ
deriving DecidableEq, Repr

/-- The running-average update `avg := (avg*(n-1) + rt)/n` with `n` the
post-increment request count (lines 377, 438, 471, 540). -/
def avgUpdate (svc : ServiceState) (rt : ℚ) : ServiceState :=
  { svc with averageResponseTime :=
      (svc.averageResponseTime * ((svc.requestCount : ℚ) - 1) + rt) /
        (svc.requestCount : ℚ) }

/-- The four assignments of the `/reset-circuit-breaker` handler
(lines 416-419). -/
def resetCircuitBreaker (s : Sys) : Sys :=
  { s with circuitBreakerState := .CLOSED, circuitBreakerOpenTime := none,
           halfOpenAttempts := 0, errorWindow := [] }

/-- The success-path routing (lines 375-553), reached after
`recordSuccess`: health check, reset endpoint, GET, POST (with the
`/hello` validation branch that additionally calls `recordError`,
lines 474-490), and the catch-all for other methods. -/
def dispatch (now : ℚ) (req : Request) (s : Sys) : Response × Sys :=
  if req.url = "/" ∨ req.url = "/health" then
    ({ status := 200 }, { s with svc := avgUpdate s.svc 0 })
  else if req.url = "/reset-circuit-breaker" ∧ req.method = "POST" then
    let s1 := resetCircuitBreaker s
    ({ status := 200, circuit_breaker_state := some s1.circuitBreakerState }, s1)
  else if req.method = "GET" then
    ({ status := 200 }, { s with svc := avgUpdate s.svc 0 })
  else if req.method = "POST" then
    let s1 : Sys := { s with svc := avgUpdate s.svc 0 }
    if req.url = "/hello" ∧ req.bodyName = false then
      ({ status := 400, error_type := some .validation_error }, recordError now s1)
    else
      ({ status := 200 }, s1)
  else
    ({ status := 200 }, { s with svc := avgUpdate s.svc 0 })

/-- The error-injection stage (lines 330-368): `simulateError`, then the
plain network-drop check against `baseSuccessRate`. Returns the error
response to send, if any. -/
def injectionCheck (cfg : Config) (d : Draws) : Option Response :=
  match simulateError cfg d.err with
  | some (code, kind) => some { status := code, error_type := some kind }
  | none =>
    if d.drop > cfg.baseSuccessRate then
      some { status := 504, error_type := some .network_failure }
    else none

/-- Steps after the admission gates (lines 323-553): artificial delay,
normal-period check, error injection unless a normal period is active,
then `recordSuccess` and the success-path routing. -/
def postGates (cfg : Config) (now : ℚ) (d : Draws) (req : Request) (s : Sys) :
    Response × Sys :=
  let _artificialDelay := addDelay cfg d.slow d.slowDelay
  let np := isInNormalPeriod cfg now d.normal d.normalDur s.svc
  let s1 : Sys := { s with svc := np.2 }
  match (if np.1 then none else injectionCheck cfg d) with
  | some r => (r, recordError now s1)
  | none => dispatch now req (recordSuccess cfg now s1)

/-- The admission gates (lines 260-321): rate limiting, service
availability, circuit breaker. Returns `some errorResponse` when the
request is rejected (with `recordError` applied), `none` when admitted. -/
def gateCheck (cfg : Config) (now : ℚ) (d : Draws) (req : Request) (s : Sys) :
    Option Response × Sys :=
  let rl := checkRateLimitIp cfg now req.ip s
  if rl.1 then
    (some { status := 429, error_type := some .rate_limit }, recordError now rl.2)
  else
    let av := checkServiceAvailability cfg now d.outage d.outageDur rl.2.svc
    let s1 : Sys := { rl.2 with svc := av.2 }
    if av.1 = false then
      (some { status := 503, error_type := some .service_unavailable },
       recordError now s1)
    else
      let cb := isCircuitBreakerOpen cfg now s1
      if cb.1 then
        let s2 := recordError now cb.2
        (some { status := 503, error_type := some .circuit_breaker_open,
                circuit_breaker_state := some s2.circuitBreakerState }, s2)
      else
        (none, cb.2)

/-- The `requestCount` increment at function entry (line 230). -/
def bumpCount (s : Sys) : Sys :=
  { s with svc := { s.svc with requestCount := s.svc.requestCount + 1 } }

/-- The whole `helloHttp` handler (lines 227-574): count the request,
answer CORS preflights immediately (line 238), then run the admission
gates and, if admitted, the rest of the pipeline. -/
def helloHttp (cfg : Config) (now : ℚ) (d : Draws) (req : Request) (s : Sys) :
    Response × Sys :=
  let s0 := bumpCount s
  if req.method = "OPTIONS" then ({ status := 204 }, s0)
  else
    let g := gateCheck cfg now d req s0
    match g.1 with
    | some r => (r, g.2)
    | none => postGates cfg now d req g.2

/-- The `serviceState` initializer (lines 4-14); `startTime` is the
`Date.now()` of module load. -/
def initialServiceState (startTime : ℚ) : ServiceState :=
  { isHealthy := true, lastOutageStart := none, outageEndTime := none,
    normalPeriodStart := startTime, normalPeriodDuration := none,
    requestCount := 0, successCount := 0, errorCount := 0, averageResponseTime := 0 }

/-- The initial module-level state (lines 4-14 and 62-65). -/
def initialSys (startTime : ℚ) : Sys :=
  { svc := initialServiceState startTime, errorWindow := [],
    circuitBreakerState := .CLOSED, circuitBreakerOpenTime := none,
    halfOpenAttempts := 0, rateLimitMap := [] }

/-- The operations that touch circuit-breaker state, for stating
invariants over arbitrary interleavings. -/
inductive CBOp where
  | check (now : ℚ)
  | recErr (now : ℚ)
  | recSucc (now : ℚ)
  | reset
deriving DecidableEq, Repr

/-- Apply one breaker-relevant operation to the state. -/
def applyCBOp (cfg : Config) (s : Sys) : CBOp → Sys
  | .check now => (isCircuitBreakerOpen cfg now s).2
  | .recErr now => recordError now s
  | .recSucc now => recordSuccess cfg now s
  | .reset => resetCircuitBreaker s

/-- Apply a sequence of breaker-relevant operations in order. -/
def runCBOps (cfg : Config) (s : Sys) : List CBOp → Sys
  | [] => s
  | op :: ops => runCBOps cfg (applyCBOp cfg s op) ops

/-- Run `checkRateLimit` over a sequence of request times for one client,
collecting the denial flags in order. -/
def rlSeq (cfg : Config) (entry : Option RLEntry) : List ℚ → Option RLEntry × List Bool
  | [] => (entry, [])
  | t :: ts =>
    let r := checkRateLimit cfg t entry
    let rest := rlSeq cfg (some r.2) ts
    (rest.1, r.1 :: rest.2)

/-! ## Concrete fixtures used to evaluate the definitions -/

/-- A draw vector with every uniform value `1/2`: at the default
configuration no probabilistic branch fires. -/
def midDraws : Draws :=
  { outage := 1/2, outageDur := 1/2, slow := 1/2, slowDelay := 1/2,
    normal := 1/2, normalDur := 1/2, err := 1/2, drop := 1/2 }

/-- A `POST /reset-circuit-breaker` request. -/
def reqReset : Request :=
  { method := "POST", url := "/reset-circuit-breaker", ip := "c",
    bodyName := false, queryName := false }

/-- A `POST /hello` request with no `name` in the body. -/
def reqHello : Request :=
  { method := "POST", url := "/hello", ip := "c",
    bodyName := false, queryName := false }

/-- A CORS preflight request. -/
def reqOptions : Request :=
  { method := "OPTIONS", url := "/", ip := "c",
    bodyName := false, queryName := false }

/-- A plain GET request on a non-health path. -/
def reqGet : Request :=
  { method := "GET", url := "/x", ip := "c",
    bodyName := false, queryName := false }

/-- A state whose breaker opened at time 1000 and is still within the
recovery period at time 1000. -/
def sysOpenRecent : Sys :=
  { svc := initialServiceState 0, errorWindow := [900],
    circuitBreakerState := .OPEN, circuitBreakerOpenTime := some 1000,
    halfOpenAttempts := 0, rateLimitMap := [] }

/-- A `HALF_OPEN` state one success away from closing, with one old and
one recent error entry. -/
def sysHalfOpenProbe : Sys :=
  { svc := initialServiceState 0, errorWindow := [50000, 90000],
    circuitBreakerState := .HALF_OPEN, circuitBreakerOpenTime := some 40000,
    halfOpenAttempts := 1, rateLimitMap := [] }

/-- A healthy state inside an active normal period (started at 500, lasting
600000 ms). -/
def sysNormalPeriod : Sys :=
  { svc := { (initialServiceState 0) with
               normalPeriodStart := 500, normalPeriodDuration := some 600000 },
    errorWindow := [], circuitBreakerState := .CLOSED,
    circuitBreakerOpenTime := none, halfOpenAttempts := 0, rateLimitMap := [] }

/-- A `CLOSED` state whose error window already holds the default
threshold of 15 recent entries. -/
def sysClosedThreshold : Sys :=
  { svc := initialServiceState 0, errorWindow := List.replicate 15 90000,
    circuitBreakerState := .CLOSED, circuitBreakerOpenTime := none,
    halfOpenAttempts := 0, rateLimitMap := [] }

/-- A service state inside an outage window ending at time 100. -/
def svcOutage : ServiceState :=
  { (initialServiceState 0) with
    isHealthy := false, outageEndTime := some 100, lastOutageStart := some 0 }

/-! ## Helper lemmas -/

/-- A call inside the window increments the count, keeps the window start,
and denies exactly when the incremented count exceeds the maximum. -/
theorem checkRateLimit_inWindow (cfg : Config) (now : ℚ) (e : RLEntry)
    (h : now - e.start ≤ cfg.rateLimitWindowMs) :
    checkRateLimit cfg now (some e) =
      (decide (e.count + 1 > cfg.rateLimitMax),
       { count := e.count + 1, start := e.start }) := by
  simp only [checkRateLimit]
  rw [if_neg (not_lt.2 h)]
  by_cases hc : e.count + 1 > cfg.rateLimitMax
  · rw [if_pos hc]; simp [hc]
  · rw [if_neg hc]; simp [hc]

/-- Within one window, the denial flags from an entry with count `c` are
positional: the `i`-th request (0-based) is denied exactly when `c + i + 1`
exceeds the maximum. -/
theorem rlSeq_flags_inWindow (cfg : Config) (ts : List ℚ) :
    ∀ (c : ℕ) (s0 : ℚ), (∀ t ∈ ts, t - s0 ≤ cfg.rateLimitWindowMs) →
      (rlSeq cfg (some { count := c, start := s0 }) ts).2 =
        (List.range ts.length).map (fun i => decide (c + i + 1 > cfg.rateLimitMax)) := by
  induction ts with
  | nil => intro c s0 _; rfl
  | cons t ts ih =>
    intro c s0 h
    simp only [rlSeq]
    rw [checkRateLimit_inWindow cfg t { count := c, start := s0 } (h t (by simp))]
    rw [ih (c + 1) s0 (fun u hu => h u (by simp [hu]))]
    rw [List.length_cons, List.range_succ_eq_map, List.map_cons, List.map_map]
    refine congrArg₂ _ (by simp) (List.map_congr_left fun i _ => ?_)
    simp only [Function.comp_apply, decide_eq_decide]
    omega

/-- Once the stored count has reached the maximum, every in-window request
is denied. -/
theorem rlSeq_denied_all (cfg : Config) (ts : List ℚ) :
    ∀ e : RLEntry, cfg.rateLimitMax ≤ e.count →
      (∀ t ∈ ts, t - e.start ≤ cfg.rateLimitWindowMs) →
      (rlSeq cfg (some e) ts).2 = ts.map (fun _ => true) := by
  induction ts with
  | nil => intro e _ _; rfl
  | cons t ts ih =>
    intro e hc h
    simp only [rlSeq]
    rw [checkRateLimit_inWindow cfg t e (h t (by simp))]
    rw [ih { count := e.count + 1, start := e.start } (by exact Nat.le_succ_of_le hc)
          (fun u hu => h u (by simp [hu]))]
    simp only [List.map_cons]
    refine congrArg₂ _ ?_ rfl
    simp only [decide_eq_true_eq]
    omega

/-! ## C6: breaker check transitions -/

/-- C6: `isCircuitBreakerOpen` is a transition point. While `CLOSED`, once
the error window pruned to entries younger than `circuitBreakerWindow` has
length at least `circuitBreakerThreshold`, the check returns `true` and
moves the breaker to `OPEN` with `circuitBreakerOpenTime = now`. While
`OPEN` with `now - circuitBreakerOpenTime < circuitBreakerRecovery` the
check rejects; the first check with
`now - circuitBreakerOpenTime ≥ circuitBreakerRecovery` is itself admitted
(returns `false`), moves to `HALF_OPEN` and zeroes `halfOpenAttempts`. -/
theorem isCircuitBreakerOpen_transitions (cfg : Config) (now : ℚ) (s : Sys) :
    (s.circuitBreakerState = .CLOSED →
      cfg.circuitBreakerThreshold ≤
        (s.errorWindow.filter (fun t => now - t < cfg.circuitBreakerWindow)).length →
      (isCircuitBreakerOpen cfg now s).1 = true ∧
      (isCircuitBreakerOpen cfg now s).2.circuitBreakerState = .OPEN ∧
      (isCircuitBreakerOpen cfg now s).2.circuitBreakerOpenTime = some now) ∧
    (∀ t0 : ℚ, s.circuitBreakerState = .OPEN → s.circuitBreakerOpenTime = some t0 →
      now - t0 < cfg.circuitBreakerRecovery →
      (isCircuitBreakerOpen cfg now s).1 = true ∧
      (isCircuitBreakerOpen cfg now s).2.circuitBreakerState = .OPEN ∧
      (isCircuitBreakerOpen cfg now s).2.circuitBreakerOpenTime = some t0) ∧
    (∀ t0 : ℚ, s.circuitBreakerState = .OPEN → s.circuitBreakerOpenTime = some t0 →
      cfg.circuitBreakerRecovery ≤ now - t0 →
      (isCircuitBreakerOpen cfg now s).1 = false ∧
      (isCircuitBreakerOpen cfg now s).2.circuitBreakerState = .HALF_OPEN ∧
      (isCircuitBreakerOpen cfg now s).2.halfOpenAttempts = 0) := by
  refine ⟨fun h1 h2 => ?_, fun t0 h1 h2 h3 => ?_, fun t0 h1 h2 h3 => ?_⟩
  · simp only [isCircuitBreakerOpen, h1]
    rw [if_pos (by simp only [ge_iff_le]; exact h2)]
    exact ⟨rfl, rfl, rfl⟩
  · simp only [isCircuitBreakerOpen, h1, h2]
    rw [if_neg (by simpa using not_le.2 h3)]
    exact ⟨rfl, rfl, rfl⟩
  · simp only [isCircuitBreakerOpen, h1, h2]
    rw [if_pos (by simpa using h3)]
    exact ⟨rfl, rfl, rfl⟩

/-- Evaluation of `isCircuitBreakerOpen_transitions` on concrete inputs:
opening at the threshold, holding while recovery has not elapsed, and
half-opening at recovery. -/
theorem isCircuitBreakerOpen_transitions_witness :
    ((isCircuitBreakerOpen defaultConfig 100000 sysClosedThreshold).1 = true ∧
     (isCircuitBreakerOpen defaultConfig 100000 sysClosedThreshold).2.circuitBreakerState = .OPEN ∧
     (isCircuitBreakerOpen defaultConfig 100000 sysClosedThreshold).2.circuitBreakerOpenTime = some 100000) ∧
    ((isCircuitBreakerOpen defaultConfig 1000 sysOpenRecent).1 = true ∧
     (isCircuitBreakerOpen defaultConfig 1000 sysOpenRecent).2.circuitBreakerState = .OPEN ∧
     (isCircuitBreakerOpen defaultConfig 1000 sysOpenRecent).2.circuitBreakerOpenTime = some 1000) ∧
    ((isCircuitBreakerOpen defaultConfig 21000 sysOpenRecent).1 = false ∧
     (isCircuitBreakerOpen defaultConfig 21000 sysOpenRecent).2.circuitBreakerState = .HALF_OPEN ∧
     (isCircuitBreakerOpen defaultConfig 21000 sysOpenRecent).2.halfOpenAttempts = 0) :=
  ⟨(isCircuitBreakerOpen_transitions defaultConfig 100000 sysClosedThreshold).1
      (by decide) (by decide),
   (isCircuitBreakerOpen_transitions defaultConfig 1000 sysOpenRecent).2.1 1000
      (by decide) (by decide) (by decide),
   (isCircuitBreakerOpen_transitions defaultConfig 21000 sysOpenRecent).2.2 1000
      (by decide) (by decide) (by decide)⟩

/-! ## C7: rate limiter window -/

/-- C7: the per-call contract of `checkRateLimit` and its consequence over
a burst. A missing or expired entry is reset to `{count: 1, start: now}`
and allowed; an in-window call increments the count (window start fixed)
and denies exactly when the incremented count exceeds `rateLimitMax`.
Hence over a burst starting a fresh window, the first request is allowed
and the `i`-th in-window follow-up (0-based, overall request `i + 2`) is
denied exactly when `i + 2 > rateLimitMax`: the first `rateLimitMax`
requests pass and the `(rateLimitMax + 1)`-th is denied. -/
theorem checkRateLimit_window_contract (cfg : Config) (now : ℚ) :
    (checkRateLimit cfg now none = (false, { count := 1, start := now })) ∧
    (∀ e : RLEntry, now - e.start > cfg.rateLimitWindowMs →
      checkRateLimit cfg now (some e) = (false, { count := 1, start := now })) ∧
    (∀ e : RLEntry, now - e.start ≤ cfg.rateLimitWindowMs →
      checkRateLimit cfg now (some e) =
        (decide (e.count + 1 > cfg.rateLimitMax),
         { count := e.count + 1, start := e.start })) ∧
    (∀ ts : List ℚ, (∀ t ∈ ts, t - now ≤ cfg.rateLimitWindowMs) →
      (rlSeq cfg none (now :: ts)).2 =
        false :: (List.range ts.length).map (fun i => decide (i + 2 > cfg.rateLimitMax))) := by
  refine ⟨rfl, fun e he => ?_, fun e he => checkRateLimit_inWindow cfg now e he, fun ts h => ?_⟩
  · simp only [checkRateLimit]
    rw [if_pos he]
  · simp only [rlSeq, checkRateLimit]
    rw [rlSeq_flags_inWindow cfg ts 1 now h]
    refine congrArg₂ _ rfl (List.map_congr_left fun i _ => ?_)
    simp only [decide_eq_decide]
    omega

/-- Evaluation of `checkRateLimit_window_contract` at the default
configuration: the 51st in-window request is the first denied one. -/
theorem checkRateLimit_window_contract_witness :
    ((0:ℚ) - 0 ≤ defaultConfig.rateLimitWindowMs) ∧
    checkRateLimit defaultConfig 0 (some { count := 50, start := 0 }) =
      (decide (50 + 1 > defaultConfig.rateLimitMax), { count := 50 + 1, start := 0 }) :=
  ⟨by decide,
   (checkRateLimit_window_contract defaultConfig 0).2.2.1 { count := 50, start := 0 } (by decide)⟩

/-! ## C10: denial persists within the window -/

/-- C10: once a denial has happened the stored count exceeds the maximum
(so `rateLimitMax ≤ count` holds); from such an entry, every request inside
`rateLimitWindowMs` of the window start is denied again — the count only
grows and the window start is never moved by a denied request — while the
first request more than `rateLimitWindowMs` past the window start is
allowed with the entry reset to `{count: 1, start: now}`. -/
theorem rateLimit_denial_persists (cfg : Config) (e : RLEntry)
    (hc : cfg.rateLimitMax ≤ e.count) :
    (∀ t : ℚ, t - e.start ≤ cfg.rateLimitWindowMs →
      checkRateLimit cfg t (some e) = (true, { count := e.count + 1, start := e.start })) ∧
    (∀ ts : List ℚ, (∀ t ∈ ts, t - e.start ≤ cfg.rateLimitWindowMs) →
      (rlSeq cfg (some e) ts).2 = ts.map (fun _ => true)) ∧
    (∀ t : ℚ, t - e.start > cfg.rateLimitWindowMs →
      checkRateLimit cfg t (some e) = (false, { count := 1, start := t })) := by
  refine ⟨fun t ht => ?_, fun ts h => rlSeq_denied_all cfg ts e hc h, fun t ht => ?_⟩
  · rw [checkRateLimit_inWindow cfg t e ht]
    refine congrArg₂ _ ?_ rfl
    simp only [decide_eq_true_eq]
    omega
  · simp only [checkRateLimit]
    rw [if_pos ht]

/-- Evaluation of `rateLimit_denial_persists` on a concrete over-limit
entry: three further in-window requests are all denied, and a request
after the window is allowed again. -/
theorem rateLimit_denial_persists_witness :
    defaultConfig.rateLimitMax ≤ 51 ∧
    (rlSeq defaultConfig (some { count := 51, start := 0 }) [1000, 2000, 3000]).2 =
      [1000, 2000, 3000].map (fun _ => true) ∧
    checkRateLimit defaultConfig 20000 (some { count := 51, start := 0 }) =
      (false, { count := 1, start := 20000 }) :=
  ⟨by decide,
   (rateLimit_denial_persists defaultConfig { count := 51, start := 0 } (by decide)).2.1
      [1000, 2000, 3000] (by decide),
   (rateLimit_denial_persists defaultConfig { count := 51, start := 0 } (by decide)).2.2
      20000 (by decide)⟩

/-! ## C9: an OPEN breaker always has an open timestamp -/

/-- The invariant: an `OPEN` breaker carries a non-null open timestamp. -/
def cbInv (s : Sys) : Prop :=
  s.circuitBreakerState = .OPEN → s.circuitBreakerOpenTime ≠ none

/-- Every breaker-relevant operation preserves `cbInv`: the two transitions
into `OPEN` (threshold trip in the check, half-open failure in
`recordError`) both set `circuitBreakerOpenTime := some now`, and no other
operation reaches `OPEN` or clears the timestamp while `OPEN`. -/
theorem cbInv_applyCBOp (cfg : Config) (op : CBOp) (s : Sys) (h : cbInv s) :
    cbInv (applyCBOp cfg s op) := by
  obtain ⟨svc, ew, st, ot, ha, rm⟩ := s
  cases op with
  | check now =>
    cases st with
    | CLOSED =>
      simp only [applyCBOp, isCircuitBreakerOpen, cbInv]
      split
      · intro _; simp
      · intro hopen; exact absurd hopen (by simp)
    | OPEN =>
      simp only [applyCBOp, isCircuitBreakerOpen, cbInv]
      split
      · intro hopen; exact absurd hopen (by simp)
      · intro _; exact h rfl
    | HALF_OPEN =>
      simp only [applyCBOp, isCircuitBreakerOpen, cbInv]
      intro hopen; exact absurd hopen (by simp)
  | recErr now =>
    cases st with
    | CLOSED =>
      simp only [applyCBOp, recordError, cbInv]
      intro hopen; exact absurd hopen (by simp)
    | OPEN =>
      simp only [applyCBOp, recordError, cbInv]
      intro _; exact h rfl
    | HALF_OPEN =>
      simp only [applyCBOp, recordError, cbInv]
      intro _; simp
  | recSucc now =>
    cases st with
    | CLOSED =>
      simp only [applyCBOp, recordSuccess, cbInv]
      intro hopen; exact absurd hopen (by simp)
    | OPEN =>
      simp only [applyCBOp, recordSuccess, cbInv]
      intro _; exact h rfl
    | HALF_OPEN =>
      by_cases hc : cfg.circuitBreakerHalfOpenRequests ≤ ha + 1
      · simp only [applyCBOp, recordSuccess, cbInv]
        rw [if_pos trivial, if_pos (by exact hc)]
        intro hopen; exact absurd hopen (by simp)
      · simp only [applyCBOp, recordSuccess, cbInv]
        rw [if_pos trivial, if_neg (by exact hc)]
        intro hopen; exact absurd hopen (by simp)
  | reset =>
    simp only [applyCBOp, resetCircuitBreaker, cbInv]
    intro hopen; exact absurd hopen (by simp)

/-- `cbInv` is preserved by any sequence of breaker-relevant operations. -/
theorem cbInv_runCBOps (cfg : Config) (ops : List CBOp) :
    ∀ s : Sys, cbInv s → cbInv (runCBOps cfg s ops) := by
  induction ops with
  | nil => exact fun s h => h
  | cons op ops ih => exact fun s h => ih _ (cbInv_applyCBOp cfg op s h)

/-- C9: after any sequence of the operations that can change breaker state
(`isCircuitBreakerOpen`, `recordError`, `recordSuccess`, the reset
endpoint) from the initial state, an `OPEN` breaker has a non-null
`circuitBreakerOpenTime`, so the recovery arithmetic
`now - circuitBreakerOpenTime` in the `OPEN` branch and in the
`circuit_breaker_open` payload is always defined. -/
theorem open_state_has_openTime (cfg : Config) (t0 : ℚ) (ops : List CBOp)
    (h : (runCBOps cfg (initialSys t0) ops).circuitBreakerState = .OPEN) :
    (runCBOps cfg (initialSys t0) ops).circuitBreakerOpenTime ≠ none :=
  cbInv_runCBOps cfg ops (initialSys t0)
    (fun hopen => absurd hopen (by simp [initialSys])) h

/-- Evaluation of `open_state_has_openTime`: fifteen recorded errors
followed by one check trip the breaker to `OPEN`, and the open timestamp
is indeed set. -/
theorem open_state_has_openTime_witness :
    (runCBOps defaultConfig (initialSys 0)
      (List.replicate 15 (CBOp.recErr 0) ++ [CBOp.check 0])).circuitBreakerOpenTime ≠ none :=
  open_state_has_openTime defaultConfig 0
    (List.replicate 15 (CBOp.recErr 0) ++ [CBOp.check 0]) (by decide)

/-! ## C2: which half of the error window survives a half-open close -/

/-- C2 as stated is false: the half-open-to-closed transition of
`recordSuccess` retains the entries strictly newer than the age cutoff
`now - circuitBreakerWindow/2` and discards the older ones — the oldest
part, not the newest. At `now = 100000` the cutoff is `70000`; from the
window `[50000, 90000]` the newest entry `90000` is retained and the
oldest entry `50000` is discarded, the opposite of the claimed
behavior. -/
theorem recordSuccess_newest_kept_cex :
    (recordSuccess defaultConfig 100000 sysHalfOpenProbe).circuitBreakerState = .CLOSED ∧
    (recordSuccess defaultConfig 100000 sysHalfOpenProbe).errorWindow = [90000] ∧
    (90000 : ℚ) ∈ (recordSuccess defaultConfig 100000 sysHalfOpenProbe).errorWindow ∧
    (50000 : ℚ) ∉ (recordSuccess defaultConfig 100000 sysHalfOpenProbe).errorWindow := by
  decide

/-- C2 amended: when the breaker is `HALF_OPEN` and the incremented probe
counter reaches `circuitBreakerHalfOpenRequests`, `recordSuccess` closes
the breaker, zeroes the counter, and discards the oldest part of the error
window — the entries at or below the age cutoff
`now - circuitBreakerWindow/2` — while the strictly newer entries are
retained. -/
theorem recordSuccess_halfOpen_close (cfg : Config) (now : ℚ) (s : Sys)
    (hst : s.circuitBreakerState = .HALF_OPEN)
    (hatt : cfg.circuitBreakerHalfOpenRequests ≤ s.halfOpenAttempts + 1) :
    (recordSuccess cfg now s).circuitBreakerState = .CLOSED ∧
    (recordSuccess cfg now s).halfOpenAttempts = 0 ∧
    (recordSuccess cfg now s).errorWindow =
      s.errorWindow.filter (fun t => t > now - cfg.circuitBreakerWindow / 2) ∧
    (recordSuccess cfg now s).svc.successCount = s.svc.successCount + 1 := by
  simp only [recordSuccess]
  rw [if_pos hst, if_pos (by simpa using hatt)]
  exact ⟨rfl, rfl, rfl, rfl⟩

/-- Evaluation of `recordSuccess_halfOpen_close` on the concrete half-open
probe state. -/
theorem recordSuccess_halfOpen_close_witness :
    defaultConfig.circuitBreakerHalfOpenRequests ≤ sysHalfOpenProbe.halfOpenAttempts + 1 ∧
    ((recordSuccess defaultConfig 100000 sysHalfOpenProbe).circuitBreakerState = .CLOSED ∧
     (recordSuccess defaultConfig 100000 sysHalfOpenProbe).halfOpenAttempts = 0 ∧
     (recordSuccess defaultConfig 100000 sysHalfOpenProbe).errorWindow =
       sysHalfOpenProbe.errorWindow.filter
         (fun t => t > 100000 - defaultConfig.circuitBreakerWindow / 2) ∧
     (recordSuccess defaultConfig 100000 sysHalfOpenProbe).svc.successCount =
       sysHalfOpenProbe.svc.successCount + 1) :=
  ⟨by decide,
   recordSuccess_halfOpen_close defaultConfig 100000 sysHalfOpenProbe (by decide) (by decide)⟩

/-! ## C8: outage window behavior -/

/-- C8 as stated is false on one point: the call that clears an expired
outage window can itself draw a fresh outage and then returns `false`.
Here the outage ended at time 100, the next call arrives at 150 (strictly
after the end time) with outage draw 0 (below `outageChance`), and the
service reports unavailable again with a new window ending at 30150,
instead of the claimed unconditional `true`. -/
theorem checkServiceAvailability_first_after_cex :
    (checkServiceAvailability defaultConfig 150 0 (1/2) svcOutage).1 = false ∧
    (checkServiceAvailability defaultConfig 150 0 (1/2) svcOutage).2.outageEndTime =
      some 30150 ∧
    (checkServiceAvailability defaultConfig 150 0 (1/2) svcOutage).2.isHealthy = false := by
  decide

/-- C8 amended: while an outage window is set, every call strictly before
the end time returns `false` and changes nothing (no new outage is drawn);
a call at or after the end time clears the window (`outageEndTime` and
`lastOutageStart` to null, healthy) and returns `true` — unless its own
availability draw is below `outageChance`, in which case a fresh outage
window starting at `now` begins and the call returns `false`; with no
window set and the service healthy, calls whose draw does not trigger
return `true` and change nothing. -/
theorem checkServiceAvailability_window (cfg : Config) (now randOutage randDur : ℚ)
    (s : ServiceState) :
    (∀ endT : ℚ, s.outageEndTime = some endT → now < endT →
      checkServiceAvailability cfg now randOutage randDur s = (false, s)) ∧
    (∀ endT : ℚ, s.outageEndTime = some endT → endT ≤ now →
      ¬ randOutage < cfg.outageChance →
      checkServiceAvailability cfg now randOutage randDur s =
        (true, { s with isHealthy := true, outageEndTime := none,
                        lastOutageStart := none })) ∧
    (∀ endT : ℚ, s.outageEndTime = some endT → endT ≤ now →
      randOutage < cfg.outageChance →
      (checkServiceAvailability cfg now randOutage randDur s).1 = false ∧
      (checkServiceAvailability cfg now randOutage randDur s).2.outageEndTime =
        some (now + (randDur * (cfg.maxOutageDuration - cfg.minOutageDuration) +
                     cfg.minOutageDuration)) ∧
      (checkServiceAvailability cfg now randOutage randDur s).2.isHealthy = false ∧
      (checkServiceAvailability cfg now randOutage randDur s).2.lastOutageStart =
        some now) ∧
    (s.outageEndTime = none → s.isHealthy = true → ¬ randOutage < cfg.outageChance →
      checkServiceAvailability cfg now randOutage randDur s = (true, s)) := by
  refine ⟨fun endT h1 h2 => ?_, fun endT h1 h2 h3 => ?_,
          fun endT h1 h2 h3 => ?_, fun h1 h2 h3 => ?_⟩
  · simp only [checkServiceAvailability, h1]
    rw [if_pos h2]
  · simp only [checkServiceAvailability, h1]
    rw [if_neg (not_lt.2 h2)]
    simp only [availabilityDraw]
    rw [if_neg (by simp [h3])]
  · simp only [checkServiceAvailability, h1]
    rw [if_neg (not_lt.2 h2)]
    simp only [availabilityDraw]
    rw [if_pos (by simp [h3])]
    exact ⟨rfl, rfl, rfl, rfl⟩
  · simp only [checkServiceAvailability, h1, availabilityDraw]
    rw [if_neg (by simp [h3])]
    rw [h2]

/-- Evaluation of `checkServiceAvailability_window` on the concrete outage
state: rejected before the end time, recovered after it when the draw does
not trigger. -/
theorem checkServiceAvailability_window_witness :
    svcOutage.outageEndTime = some 100 ∧
    checkServiceAvailability defaultConfig 50 (1/2) (1/2) svcOutage = (false, svcOutage) ∧
    checkServiceAvailability defaultConfig 150 (1/2) (1/2) svcOutage =
      (true, { svcOutage with isHealthy := true, outageEndTime := none,
                              lastOutageStart := none }) :=
  ⟨rfl,
   (checkServiceAvailability_window defaultConfig 50 (1/2) (1/2) svcOutage).1 100
     rfl (by decide),
   (checkServiceAvailability_window defaultConfig 150 (1/2) (1/2) svcOutage).2.1 100
     rfl (by decide) (by decide)⟩

/-! ## Structural lemmas about the pipeline stages -/

/-- `recordError` always appends the current timestamp to the error
window, whatever the breaker state. -/
theorem recordError_errorWindow (now : ℚ) (s : Sys) :
    (recordError now s).errorWindow = s.errorWindow ++ [now] := by
  simp only [recordError]
  split <;> rfl

/-- `recordError` bumps the error count and nothing else among the
counters. -/
theorem recordError_counts (now : ℚ) (s : Sys) :
    (recordError now s).svc.errorCount = s.svc.errorCount + 1 ∧
    (recordError now s).svc.successCount = s.svc.successCount ∧
    (recordError now s).svc.requestCount = s.svc.requestCount := by
  simp only [recordError]
  split <;> exact ⟨rfl, rfl, rfl⟩

/-- `recordSuccess` bumps the success count and nothing else among the
counters. -/
theorem recordSuccess_counts (cfg : Config) (now : ℚ) (s : Sys) :
    (recordSuccess cfg now s).svc.successCount = s.svc.successCount + 1 ∧
    (recordSuccess cfg now s).svc.errorCount = s.svc.errorCount ∧
    (recordSuccess cfg now s).svc.requestCount = s.svc.requestCount := by
  simp only [recordSuccess]
  split
  · split <;> exact ⟨rfl, rfl, rfl⟩
  · exact ⟨rfl, rfl, rfl⟩

/-- The availability check never touches the request counters. -/
theorem checkServiceAvailability_counts (cfg : Config) (now r1 r2 : ℚ)
    (svc : ServiceState) :
    (checkServiceAvailability cfg now r1 r2 svc).2.requestCount = svc.requestCount ∧
    (checkServiceAvailability cfg now r1 r2 svc).2.successCount = svc.successCount ∧
    (checkServiceAvailability cfg now r1 r2 svc).2.errorCount = svc.errorCount := by
  simp only [checkServiceAvailability, availabilityDraw]
  rcases hoe : svc.outageEndTime with _ | e <;> simp only [hoe] <;>
    (repeat' split) <;> exact ⟨rfl, rfl, rfl⟩

/-- The normal-period check never touches the request counters. -/
theorem isInNormalPeriod_counts (cfg : Config) (now r1 r2 : ℚ)
    (svc : ServiceState) :
    (isInNormalPeriod cfg now r1 r2 svc).2.requestCount = svc.requestCount ∧
    (isInNormalPeriod cfg now r1 r2 svc).2.successCount = svc.successCount ∧
    (isInNormalPeriod cfg now r1 r2 svc).2.errorCount = svc.errorCount := by
  simp only [isInNormalPeriod]
  rcases hnd : svc.normalPeriodDuration with _ | dd <;> simp only [hnd] <;>
    (repeat' split) <;> exact ⟨rfl, rfl, rfl⟩

/-- The breaker check never touches `serviceState`. -/
theorem isCircuitBreakerOpen_svc (cfg : Config) (now : ℚ) (s : Sys) :
    (isCircuitBreakerOpen cfg now s).2.svc = s.svc := by
  simp only [isCircuitBreakerOpen]
  rcases hst : s.circuitBreakerState <;> simp only [hst] <;>
    (repeat' split) <;> rfl

/-- The three cumulative bands of `simulateError` and their statuses. -/
theorem simulateError_shape (cfg : Config) (r : ℚ) (code : ℕ) (k : ErrKind)
    (h : simulateError cfg r = some (code, k)) :
    (code = 500 ∧ k = .server_error) ∨ (code = 400 ∧ k = .client_error) ∨
    (code = 408 ∧ k = .timeout) := by
  simp only [simulateError] at h
  repeat' split at h
  all_goals simp_all

/-- Every simulated error carries one of the three injected kinds and its
status, or the drop gives a 504 network failure; no injected response has
status 200 or a `none` error type. -/
theorem injectionCheck_shape (cfg : Config) (d : Draws) (r : Response)
    (h : injectionCheck cfg d = some r) :
    (r.status = 500 ∧ r.error_type = some .server_error) ∨
    (r.status = 400 ∧ r.error_type = some .client_error) ∨
    (r.status = 408 ∧ r.error_type = some .timeout) ∨
    (r.status = 504 ∧ r.error_type = some .network_failure) := by
  simp only [injectionCheck] at h
  split at h
  · rename_i code kind heq
    injection h with h2
    subst h2
    rcases simulateError_shape cfg d.err code kind heq with ⟨hc, hk⟩ | ⟨hc, hk⟩ | ⟨hc, hk⟩ <;>
      subst hc <;> subst hk <;> simp
  · split at h
    · injection h with h2
      subst h2
      simp
    · exact absurd h (by simp)

/-- The success routing: the response carries either no error kind or the
validation kind, and in the validation branch the state is a
`recordError`. -/
theorem dispatch_error_kind (now : ℚ) (req : Request) (s : Sys) :
    (dispatch now req s).1.error_type = none ∨
    ((dispatch now req s).1.error_type = some .validation_error ∧
     ∃ l, (dispatch now req s).2.errorWindow = l ++ [now]) := by
  simp only [dispatch]
  repeat' split
  all_goals simp_all [recordError_errorWindow]

/-- Outside the `POST /hello`-without-name validation branch, the success
routing returns status 200 with no error kind. -/
theorem dispatch_not_validation (now : ℚ) (req : Request) (s : Sys)
    (hv : ¬(req.method = "POST" ∧ req.url = "/hello" ∧ req.bodyName = false)) :
    (dispatch now req s).1.status = 200 ∧
    (dispatch now req s).1.error_type = none := by
  simp only [dispatch]
  repeat' split
  all_goals simp_all

/-- The success routing never touches the request counters outside the
validation branch; in the validation branch it bumps the error count. -/
theorem dispatch_counts (now : ℚ) (req : Request) (s : Sys) :
    (dispatch now req s).2.svc.requestCount = s.svc.requestCount ∧
    ((¬(req.method = "POST" ∧ req.url = "/hello" ∧ req.bodyName = false)) →
      (dispatch now req s).2.svc.successCount = s.svc.successCount ∧
      (dispatch now req s).2.svc.errorCount = s.svc.errorCount) := by
  simp only [dispatch]
  repeat' split
  all_goals refine ⟨?_, fun hv => ⟨?_, ?_⟩⟩
  all_goals first
    | rfl
    | (try exact (recordError_counts now _).2.2)
      (try exact (recordError_counts now _).2.1)
      (try exact absurd ⟨by assumption, by simp_all⟩ hv)

/-- The success routing on `POST /reset-circuit-breaker`: status 200,
breaker fully reset. -/
theorem dispatch_reset (now : ℚ) (req : Request) (s : Sys)
    (hm : req.method = "POST") (hu : req.url = "/reset-circuit-breaker") :
    dispatch now req s =
      ({ status := 200, error_type := none, circuit_breaker_state := some .CLOSED },
       resetCircuitBreaker s) := by
  simp [dispatch, hm, hu, resetCircuitBreaker]

/-- A rejected request at the admission gates: the response is one of the
three gate rejections (status 429 or 503), the timestamp is appended to
the error window, and exactly one failure is recorded. -/
theorem gateCheck_some (cfg : Config) (now : ℚ) (d : Draws) (req : Request)
    (s : Sys) (r : Response) (h : (gateCheck cfg now d req s).1 = some r) :
    (r.status = 429 ∨ r.status = 503) ∧
    (∃ l, (gateCheck cfg now d req s).2.errorWindow = l ++ [now]) ∧
    (gateCheck cfg now d req s).2.svc.successCount = s.svc.successCount ∧
    (gateCheck cfg now d req s).2.svc.errorCount = s.svc.errorCount + 1 ∧
    (gateCheck cfg now d req s).2.svc.requestCount = s.svc.requestCount := by
  simp only [gateCheck] at h ⊢
  by_cases h1 : (checkRateLimitIp cfg now req.ip s).1 = true
  · rw [if_pos h1] at h ⊢
    dsimp only at h
    have hXr := Option.some.inj h
    subst hXr
    exact ⟨Or.inl rfl, ⟨_, recordError_errorWindow now _⟩,
      (recordError_counts now _).2.1, (recordError_counts now _).1,
      (recordError_counts now _).2.2⟩
  · rw [if_neg h1] at h ⊢
    by_cases h2 : (checkServiceAvailability cfg now d.outage d.outageDur
        (checkRateLimitIp cfg now req.ip s).2.svc).1 = false
    · rw [if_pos h2] at h ⊢
      dsimp only at h
      have hXr := Option.some.inj h
      subst hXr
      refine ⟨Or.inr rfl, ⟨_, recordError_errorWindow now _⟩, ?_, ?_, ?_⟩
      · exact (recordError_counts now _).2.1.trans
          (checkServiceAvailability_counts cfg now d.outage d.outageDur _).2.1
      · exact (recordError_counts now _).1.trans
          (congrArg (· + 1) (checkServiceAvailability_counts cfg now d.outage d.outageDur _).2.2)
      · exact (recordError_counts now _).2.2.trans
          (checkServiceAvailability_counts cfg now d.outage d.outageDur _).1
    · rw [if_neg h2] at h ⊢
      by_cases h3 : (isCircuitBreakerOpen cfg now
          { (checkRateLimitIp cfg now req.ip s).2 with
            svc := (checkServiceAvailability cfg now d.outage d.outageDur
              (checkRateLimitIp cfg now req.ip s).2.svc).2 }).1 = true
      · rw [if_pos h3] at h ⊢
        dsimp only at h
        have hXr := Option.some.inj h
        subst hXr
        refine ⟨Or.inr rfl, ⟨_, recordError_errorWindow now _⟩, ?_, ?_, ?_⟩
        · exact (recordError_counts now _).2.1.trans
            ((congrArg ServiceState.successCount (isCircuitBreakerOpen_svc cfg now _)).trans
              (checkServiceAvailability_counts cfg now d.outage d.outageDur _).2.1)
        · exact (recordError_counts now _).1.trans
            (congrArg (· + 1)
              ((congrArg ServiceState.errorCount (isCircuitBreakerOpen_svc cfg now _)).trans
                (checkServiceAvailability_counts cfg now d.outage d.outageDur _).2.2))
        · exact (recordError_counts now _).2.2.trans
            ((congrArg ServiceState.requestCount (isCircuitBreakerOpen_svc cfg now _)).trans
              (checkServiceAvailability_counts cfg now d.outage d.outageDur _).1)
      · rw [if_neg h3] at h
        exact absurd h (by simp)

/-- An admitted request leaves all three counters untouched by the gates
themselves. -/
theorem gateCheck_none_counts (cfg : Config) (now : ℚ) (d : Draws)
    (req : Request) (s : Sys) (h : (gateCheck cfg now d req s).1 = none) :
    (gateCheck cfg now d req s).2.svc.successCount = s.svc.successCount ∧
    (gateCheck cfg now d req s).2.svc.errorCount = s.svc.errorCount ∧
    (gateCheck cfg now d req s).2.svc.requestCount = s.svc.requestCount := by
  simp only [gateCheck] at h ⊢
  by_cases h1 : (checkRateLimitIp cfg now req.ip s).1 = true
  · rw [if_pos h1] at h
    exact absurd h (by simp)
  · rw [if_neg h1] at h ⊢
    by_cases h2 : (checkServiceAvailability cfg now d.outage d.outageDur
        (checkRateLimitIp cfg now req.ip s).2.svc).1 = false
    · rw [if_pos h2] at h
      exact absurd h (by simp)
    · rw [if_neg h2] at h ⊢
      by_cases h3 : (isCircuitBreakerOpen cfg now
          { (checkRateLimitIp cfg now req.ip s).2 with
            svc := (checkServiceAvailability cfg now d.outage d.outageDur
              (checkRateLimitIp cfg now req.ip s).2.svc).2 }).1 = true
      · rw [if_pos h3] at h
        exact absurd h (by simp)
      · rw [if_neg h3]
        refine ⟨?_, ?_, ?_⟩
        · exact (congrArg ServiceState.successCount (isCircuitBreakerOpen_svc cfg now _)).trans
            (checkServiceAvailability_counts cfg now d.outage d.outageDur _).2.1
        · exact (congrArg ServiceState.errorCount (isCircuitBreakerOpen_svc cfg now _)).trans
            (checkServiceAvailability_counts cfg now d.outage d.outageDur _).2.2
        · exact (congrArg ServiceState.requestCount (isCircuitBreakerOpen_svc cfg now _)).trans
            (checkServiceAvailability_counts cfg now d.outage d.outageDur _).1

/-- The post-gate stage never changes the request counter. -/
theorem postGates_requestCount (cfg : Config) (now : ℚ) (d : Draws)
    (req : Request) (s : Sys) :
    (postGates cfg now d req s).2.svc.requestCount = s.svc.requestCount := by
  simp only [postGates]
  by_cases hnp : (isInNormalPeriod cfg now d.normal d.normalDur s.svc).1 = true
  · rw [if_pos hnp]
    dsimp only
    have hstep := isInNormalPeriod_counts cfg now d.normal d.normalDur s.svc
    have hrs := recordSuccess_counts cfg now
      { s with svc := (isInNormalPeriod cfg now d.normal d.normalDur s.svc).2 }
    have hdp := dispatch_counts now req (recordSuccess cfg now
      { s with svc := (isInNormalPeriod cfg now d.normal d.normalDur s.svc).2 })
    dsimp only at hrs
    omega
  · rw [if_neg hnp]
    rcases hic : injectionCheck cfg d with _ | r2
    · dsimp only
      have hstep := isInNormalPeriod_counts cfg now d.normal d.normalDur s.svc
      have hrs := recordSuccess_counts cfg now
        { s with svc := (isInNormalPeriod cfg now d.normal d.normalDur s.svc).2 }
      have hdp := dispatch_counts now req (recordSuccess cfg now
        { s with svc := (isInNormalPeriod cfg now d.normal d.normalDur s.svc).2 })
      dsimp only at hrs
      omega
    · dsimp only
      have hstep := isInNormalPeriod_counts cfg now d.normal d.normalDur s.svc
      have hre := recordError_counts now
        { s with svc := (isInNormalPeriod cfg now d.normal d.normalDur s.svc).2 }
      dsimp only at hre
      omega

/-- Outside the validation branch, the post-gate stage records exactly one
outcome: the success and error counters grow by exactly one in total. -/
theorem postGates_counts (cfg : Config) (now : ℚ) (d : Draws) (req : Request)
    (s : Sys)
    (hv : ¬(req.method = "POST" ∧ req.url = "/hello" ∧ req.bodyName = false)) :
    (postGates cfg now d req s).2.svc.successCount +
        (postGates cfg now d req s).2.svc.errorCount
      = s.svc.successCount + s.svc.errorCount + 1 := by
  simp only [postGates]
  by_cases hnp : (isInNormalPeriod cfg now d.normal d.normalDur s.svc).1 = true
  · rw [if_pos hnp]
    dsimp only
    have hstep := isInNormalPeriod_counts cfg now d.normal d.normalDur s.svc
    have hrs := recordSuccess_counts cfg now
      { s with svc := (isInNormalPeriod cfg now d.normal d.normalDur s.svc).2 }
    have hdp := (dispatch_counts now req (recordSuccess cfg now
      { s with svc := (isInNormalPeriod cfg now d.normal d.normalDur s.svc).2 })).2 hv
    dsimp only at hrs
    omega
  · rw [if_neg hnp]
    rcases hic : injectionCheck cfg d with _ | r2
    · dsimp only
      have hstep := isInNormalPeriod_counts cfg now d.normal d.normalDur s.svc
      have hrs := recordSuccess_counts cfg now
        { s with svc := (isInNormalPeriod cfg now d.normal d.normalDur s.svc).2 }
      have hdp := (dispatch_counts now req (recordSuccess cfg now
        { s with svc := (isInNormalPeriod cfg now d.normal d.normalDur s.svc).2 })).2 hv
      dsimp only at hrs
      omega
    · dsimp only
      have hstep := isInNormalPeriod_counts cfg now d.normal d.normalDur s.svc
      have hre := recordError_counts now
        { s with svc := (isInNormalPeriod cfg now d.normal d.normalDur s.svc).2 }
      dsimp only at hre
      omega

/-- Whenever the post-gate stage reports an error kind, the timestamp was
appended to the error window. -/
theorem postGates_error_window (cfg : Config) (now : ℚ) (d : Draws)
    (req : Request) (s : Sys) (k : ErrKind)
    (h : (postGates cfg now d req s).1.error_type = some k) :
    ∃ l, (postGates cfg now d req s).2.errorWindow = l ++ [now] := by
  simp only [postGates] at h ⊢
  by_cases hnp : (isInNormalPeriod cfg now d.normal d.normalDur s.svc).1 = true
  · rw [if_pos hnp] at h ⊢
    dsimp only at h ⊢
    rcases dispatch_error_kind now req (recordSuccess cfg now
        { s with svc := (isInNormalPeriod cfg now d.normal d.normalDur s.svc).2 })
      with hd | ⟨_, l, hl⟩
    · rw [hd] at h
      exact absurd h (by simp)
    · exact ⟨l, hl⟩
  · rw [if_neg hnp] at h ⊢
    rcases hic : injectionCheck cfg d with _ | r2
    · rw [hic] at h
      dsimp only at h ⊢
      rcases dispatch_error_kind now req (recordSuccess cfg now
          { s with svc := (isInNormalPeriod cfg now d.normal d.normalDur s.svc).2 })
        with hd | ⟨_, l, hl⟩
      · rw [hd] at h
        exact absurd h (by simp)
      · exact ⟨l, hl⟩
    · dsimp only
      exact ⟨_, recordError_errorWindow now _⟩

/-- Every response produced by the post-gate stage that is not the
validation rejection has a status drawn from the injected kinds or is the
200 success; in particular a 200 only arises from the success routing. -/
theorem postGates_status_200 (cfg : Config) (now : ℚ) (d : Draws)
    (req : Request) (s : Sys)
    (h : (postGates cfg now d req s).1.status = 200) :
    (postGates cfg now d req s) =
      dispatch now req (recordSuccess cfg now
        { s with svc := (isInNormalPeriod cfg now d.normal d.normalDur s.svc).2 }) := by
  simp only [postGates] at h ⊢
  by_cases hnp : (isInNormalPeriod cfg now d.normal d.normalDur s.svc).1 = true
  · rw [if_pos hnp]
  · rw [if_neg hnp] at h ⊢
    rcases hic : injectionCheck cfg d with _ | r2
    · rfl
    · rw [hic] at h
      dsimp only at h
      rcases injectionCheck_shape cfg d r2 hic with ⟨hs, _⟩ | ⟨hs, _⟩ | ⟨hs, _⟩ | ⟨hs, _⟩ <;>
        omega

/-! ## C1: the reset endpoint and the admission gates -/

/-- C1 as stated is false: `POST /reset-circuit-breaker` does not bypass
the pipeline's admission gates — the reset handler sits after the
rate-limit, availability and breaker gates and after error injection.
With the breaker OPEN at time 1000 and checked at time 1000 (inside the
recovery period), the reset request itself is rejected with 503
`circuit_breaker_open`; the breaker stays OPEN, the open timestamp stays
set, and the error window is not emptied — the rejection even appends to
it. -/
theorem reset_endpoint_cex :
    (helloHttp defaultConfig 1000 midDraws reqReset sysOpenRecent).1.status = 503 ∧
    (helloHttp defaultConfig 1000 midDraws reqReset sysOpenRecent).1.error_type =
      some .circuit_breaker_open ∧
    (helloHttp defaultConfig 1000 midDraws reqReset sysOpenRecent).2.circuitBreakerState =
      .OPEN ∧
    (helloHttp defaultConfig 1000 midDraws reqReset sysOpenRecent).2.errorWindow =
      [900, 1000] ∧
    (helloHttp defaultConfig 1000 midDraws reqReset sysOpenRecent).2.circuitBreakerOpenTime =
      some 1000 := by
  decide

/-- C1 amended: a `POST /reset-circuit-breaker` request is subject to the
admission gates and error injection like any other request and can be
rejected; but whenever it does return status 200 it has reached the reset
handler, and then the breaker state is CLOSED, the error window empty,
the half-open counter zero, the open timestamp null, and the payload
reports `circuit_breaker_state` CLOSED. -/
theorem reset_endpoint_success (cfg : Config) (now : ℚ) (d : Draws)
    (req : Request) (s : Sys) (hm : req.method = "POST")
    (hu : req.url = "/reset-circuit-breaker")
    (h200 : (helloHttp cfg now d req s).1.status = 200) :
    (helloHttp cfg now d req s).2.circuitBreakerState = .CLOSED ∧
    (helloHttp cfg now d req s).2.errorWindow = [] ∧
    (helloHttp cfg now d req s).2.halfOpenAttempts = 0 ∧
    (helloHttp cfg now d req s).2.circuitBreakerOpenTime = none ∧
    (helloHttp cfg now d req s).1.circuit_breaker_state = some .CLOSED := by
  simp only [helloHttp] at h200 ⊢
  rw [if_neg (by simp [hm])] at h200 ⊢
  rcases hg : (gateCheck cfg now d req (bumpCount s)).1 with _ | r
  · rw [hg] at h200
    dsimp only at h200 ⊢
    rw [postGates_status_200 cfg now d req _ h200]
    rw [dispatch_reset now req _ hm hu]
    exact ⟨rfl, rfl, rfl, rfl, rfl⟩
  · rw [hg] at h200
    dsimp only at h200
    rcases (gateCheck_some cfg now d req (bumpCount s) r hg).1 with hs | hs <;> omega

/-- Evaluation of `reset_endpoint_success`: from the initial state with
non-triggering draws, the reset request is admitted, returns 200, and the
breaker ends fully reset. -/
theorem reset_endpoint_success_witness :
    (helloHttp defaultConfig 1000 midDraws reqReset (initialSys 0)).1.status = 200 ∧
    ((helloHttp defaultConfig 1000 midDraws reqReset (initialSys 0)).2.circuitBreakerState =
        .CLOSED ∧
     (helloHttp defaultConfig 1000 midDraws reqReset (initialSys 0)).2.errorWindow = [] ∧
     (helloHttp defaultConfig 1000 midDraws reqReset (initialSys 0)).2.halfOpenAttempts = 0 ∧
     (helloHttp defaultConfig 1000 midDraws reqReset (initialSys 0)).2.circuitBreakerOpenTime =
        none ∧
     (helloHttp defaultConfig 1000 midDraws reqReset (initialSys 0)).1.circuit_breaker_state =
        some .CLOSED) :=
  ⟨by decide,
   reset_endpoint_success defaultConfig 1000 midDraws reqReset (initialSys 0)
     rfl rfl (by decide)⟩

/-! ## C3: which failures feed the error window -/

/-- C3 as stated is false: a 400 `validation_error` response does append
to the circuit breaker's error window, because the `POST /hello`
validation branch calls `recordError`. From the initial state (empty
window), a `POST /hello` without `name` yields 400 `validation_error` and
a one-entry window. -/
theorem validation_appends_cex :
    (helloHttp defaultConfig 1000 midDraws reqHello (initialSys 0)).1.status = 400 ∧
    (helloHttp defaultConfig 1000 midDraws reqHello (initialSys 0)).1.error_type =
      some .validation_error ∧
    (initialSys 0).errorWindow = [] ∧
    (helloHttp defaultConfig 1000 midDraws reqHello (initialSys 0)).2.errorWindow =
      [1000] := by
  decide

/-- C3 amended: every failure response — `rate_limit`,
`service_unavailable`, `circuit_breaker_open`, the injected
`server_error`/`client_error`/`timeout`, `network_failure`, and also
`validation_error` — appends the current timestamp to the error window:
whenever `helloHttp` reports any error kind, the resulting error window
ends in `now`. -/
theorem failure_appends_error_window (cfg : Config) (now : ℚ) (d : Draws)
    (req : Request) (s : Sys) (k : ErrKind)
    (h : (helloHttp cfg now d req s).1.error_type = some k) :
    ∃ l, (helloHttp cfg now d req s).2.errorWindow = l ++ [now] := by
  simp only [helloHttp] at h ⊢
  by_cases hOpt : req.method = "OPTIONS"
  · rw [if_pos hOpt] at h
    dsimp only at h
    exact absurd h (by simp)
  · rw [if_neg hOpt] at h ⊢
    rcases hg : (gateCheck cfg now d req (bumpCount s)).1 with _ | r
    · rw [hg] at h
      dsimp only at h ⊢
      exact postGates_error_window cfg now d req _ k h
    · dsimp only
      exact (gateCheck_some cfg now d req (bumpCount s) r hg).2.1

/-- Evaluation of `failure_appends_error_window` on the validation
failure: the resulting window ends in the request timestamp. -/
theorem failure_appends_error_window_witness :
    ∃ l, (helloHttp defaultConfig 1000 midDraws reqHello (initialSys 0)).2.errorWindow =
      l ++ [1000] :=
  failure_appends_error_window defaultConfig 1000 midDraws reqHello (initialSys 0)
    .validation_error (by decide)

/-! ## C4: counter accounting -/

/-- C4 as stated is false: an OPTIONS preflight increments `requestCount`
but neither `successCount` nor `errorCount` (so the equality fails with
1 ≠ 0 after one preflight), and a `POST /hello` validation failure
increments both counters (1 request, success + error = 2). -/
theorem request_count_cex :
    (helloHttp defaultConfig 1000 midDraws reqOptions (initialSys 0)).2.svc.requestCount = 1 ∧
    (helloHttp defaultConfig 1000 midDraws reqOptions (initialSys 0)).2.svc.successCount +
      (helloHttp defaultConfig 1000 midDraws reqOptions (initialSys 0)).2.svc.errorCount = 0 ∧
    (helloHttp defaultConfig 1000 midDraws reqHello (initialSys 0)).2.svc.requestCount = 1 ∧
    (helloHttp defaultConfig 1000 midDraws reqHello (initialSys 0)).2.svc.successCount +
      (helloHttp defaultConfig 1000 midDraws reqHello (initialSys 0)).2.svc.errorCount = 2 := by
  decide

/-- C4 amended: `requestCount` grows by exactly one per request, so it is
non-decreasing; and for every completed request that is neither an
OPTIONS preflight (which records no outcome) nor a `POST /hello`
validation failure (which records both a success and an error), exactly
one outcome is recorded, so the invariant
`requestCount = successCount + errorCount` is preserved. -/
theorem request_count_accounting (cfg : Config) (now : ℚ) (d : Draws)
    (req : Request) (s : Sys) :
    (helloHttp cfg now d req s).2.svc.requestCount = s.svc.requestCount + 1 ∧
    (req.method ≠ "OPTIONS" →
      ¬(req.method = "POST" ∧ req.url = "/hello" ∧ req.bodyName = false) →
      (helloHttp cfg now d req s).2.svc.successCount +
          (helloHttp cfg now d req s).2.svc.errorCount
        = s.svc.successCount + s.svc.errorCount + 1 ∧
      (s.svc.requestCount = s.svc.successCount + s.svc.errorCount →
        (helloHttp cfg now d req s).2.svc.requestCount =
          (helloHttp cfg now d req s).2.svc.successCount +
            (helloHttp cfg now d req s).2.svc.errorCount)) := by
  have hrc : ∀ u : Sys, (helloHttp cfg now d req s).2 = u →
      u.svc.requestCount = s.svc.requestCount + 1 ∧
      (req.method ≠ "OPTIONS" →
        ¬(req.method = "POST" ∧ req.url = "/hello" ∧ req.bodyName = false) →
        u.svc.successCount + u.svc.errorCount
          = s.svc.successCount + s.svc.errorCount + 1) := by
    intro u hu
    have hb1 : (bumpCount s).svc.requestCount = s.svc.requestCount + 1 := rfl
    have hb2 : (bumpCount s).svc.successCount = s.svc.successCount := rfl
    have hb3 : (bumpCount s).svc.errorCount = s.svc.errorCount := rfl
    simp only [helloHttp] at hu
    by_cases hOpt : req.method = "OPTIONS"
    · rw [if_pos hOpt] at hu
      dsimp only at hu
      subst hu
      exact ⟨rfl, fun hno _ => absurd hOpt hno⟩
    · rw [if_neg hOpt] at hu
      rcases hg : (gateCheck cfg now d req (bumpCount s)).1 with _ | r
      · rw [hg] at hu
        dsimp only at hu
        subst hu
        have h1 := postGates_requestCount cfg now d req
          (gateCheck cfg now d req (bumpCount s)).2
        have h2 := gateCheck_none_counts cfg now d req (bumpCount s) hg
        refine ⟨by omega, fun _ hv => ?_⟩
        have h3 := postGates_counts cfg now d req
          (gateCheck cfg now d req (bumpCount s)).2 hv
        omega
      · rw [hg] at hu
        dsimp only at hu
        subst hu
        have h2 := gateCheck_some cfg now d req (bumpCount s) r hg
        refine ⟨by omega, fun _ _ => by omega⟩
  have key := hrc (helloHttp cfg now d req s).2 rfl
  refine ⟨key.1, fun hno hv => ?_⟩
  refine ⟨key.2 hno hv, fun hinv => ?_⟩
  have := key.2 hno hv
  omega

/-- Evaluation of `request_count_accounting` on a plain admitted GET from
the initial state. -/
theorem request_count_accounting_witness :
    (helloHttp defaultConfig 1000 midDraws reqGet (initialSys 0)).2.svc.requestCount =
      (initialSys 0).svc.requestCount + 1 ∧
    (helloHttp defaultConfig 1000 midDraws reqGet (initialSys 0)).2.svc.successCount +
        (helloHttp defaultConfig 1000 midDraws reqGet (initialSys 0)).2.svc.errorCount
      = (initialSys 0).svc.successCount + (initialSys 0).svc.errorCount + 1 :=
  ⟨(request_count_accounting defaultConfig 1000 midDraws reqGet (initialSys 0)).1,
   ((request_count_accounting defaultConfig 1000 midDraws reqGet (initialSys 0)).2
      (by decide) (by decide)).1⟩

/-! ## C5: normal-period suppression -/

/-- C5 as stated is false on one point: a request admitted during an
active normal period can still fail — a `POST /hello` without `name`
receives 400 `validation_error` even though the normal period suppresses
injected errors and drops. -/
theorem normal_period_validation_cex :
    (gateCheck defaultConfig 1000 midDraws reqHello (bumpCount sysNormalPeriod)).1 = none ∧
    (isInNormalPeriod defaultConfig 1000 midDraws.normal midDraws.normalDur
      (gateCheck defaultConfig 1000 midDraws reqHello (bumpCount sysNormalPeriod)).2.svc).1 =
      true ∧
    (helloHttp defaultConfig 1000 midDraws reqHello sysNormalPeriod).1.status = 400 ∧
    (helloHttp defaultConfig 1000 midDraws reqHello sysNormalPeriod).1.error_type =
      some .validation_error := by
  decide

/-- C5 amended: while a normal period is active at step 5, an admitted
request can receive no injected error (`server_error`, `client_error`,
`timeout`) and no `network_failure` drop; every admitted request receives
the 200 success response unless it is a `POST /hello` with missing
`name`, which still receives the 400 `validation_error` rejection. -/
theorem normal_period_guarantees (cfg : Config) (now : ℚ) (d : Draws)
    (req : Request) (s : Sys) (hOpt : req.method ≠ "OPTIONS")
    (hg : (gateCheck cfg now d req (bumpCount s)).1 = none)
    (hn : (isInNormalPeriod cfg now d.normal d.normalDur
        (gateCheck cfg now d req (bumpCount s)).2.svc).1 = true) :
    ((helloHttp cfg now d req s).1.error_type ≠ some .server_error ∧
     (helloHttp cfg now d req s).1.error_type ≠ some .client_error ∧
     (helloHttp cfg now d req s).1.error_type ≠ some .timeout ∧
     (helloHttp cfg now d req s).1.error_type ≠ some .network_failure) ∧
    (¬(req.method = "POST" ∧ req.url = "/hello" ∧ req.bodyName = false) →
      (helloHttp cfg now d req s).1.status = 200 ∧
      (helloHttp cfg now d req s).1.error_type = none) := by
  simp only [helloHttp]
  rw [if_neg hOpt, hg]
  dsimp only
  simp only [postGates]
  rw [if_pos hn]
  dsimp only
  constructor
  · rcases dispatch_error_kind now req (recordSuccess cfg now
        { (gateCheck cfg now d req (bumpCount s)).2 with
          svc := (isInNormalPeriod cfg now d.normal d.normalDur
            (gateCheck cfg now d req (bumpCount s)).2.svc).2 })
      with hd | ⟨hv, _⟩
    · rw [hd]
      simp
    · rw [hv]
      simp
  · intro hv
    exact dispatch_not_validation now req _ hv

/-- Evaluation of `normal_period_guarantees` on an admitted GET during an
active normal period. -/
theorem normal_period_guarantees_witness :
    (helloHttp defaultConfig 1000 midDraws reqGet sysNormalPeriod).1.status = 200 ∧
    (helloHttp defaultConfig 1000 midDraws reqGet sysNormalPeriod).1.error_type = none :=
  (normal_period_guarantees defaultConfig 1000 midDraws reqGet sysNormalPeriod
    (by decide) (by decide) (by decide)).2 (by decide)

end MaoMock
